import Mathlib

/-!
Verification of the NBA `DataTool` (src/tools/data_tool.py).

Shallow embedding conventions:
* Python `float` arithmetic is modelled over `ℚ` (the computations are sums,
  means and comparisons of decimal data; no claim depends on binary rounding).
* Python `round(x, d)` rounds half to even; `roundHalfEven` / `roundTo` model it.
* `statistics.mean` / `statistics.stdev` raise `StatisticsError` on too-small
  input; fallible derivations return `Except String _` with the error branch
  taken exactly where the Python call would raise.
* Python dict returns are modelled by structures whose fields are the dict keys
  in source order; a function that may return an empty dict `{}` returns an
  `Option` of the structure, `none` standing for `{}`.
* `datetime` instants are integers (seconds); `datetime.max` is the
  distinguished `Expiry.maxTime`, later than every reachable instant.
* The cache dict is an association list; `dict[k] = v` is modelled as erase
  then cons, which agrees with dict semantics for every lookup.
-/

namespace DataTool

/-- Round a rational to the nearest integer, ties to the even integer
(the rounding mode of Python `round`). -/
def roundHalfEven (q : ℚ) : ℤ :=
  if q - ⌊q⌋ < 1/2 then ⌊q⌋
  else if 1/2 < q - ⌊q⌋ then ⌊q⌋ + 1
  else if ⌊q⌋ % 2 = 0 then ⌊q⌋ else ⌊q⌋ + 1

/-- Python `round(q, d)`: round to `d` decimal places, ties to even. -/
def roundTo (d : ℕ) (q : ℚ) : ℚ :=
  (roundHalfEven (q * 10 ^ d) : ℚ) / 10 ^ d

/-- Arithmetic mean of a list of rationals (`statistics.mean`; the Python call
raises on an empty list, so callers branch on emptiness before using this). -/
def listMean (xs : List ℚ) : ℚ := xs.sum / xs.length

/-- Sample variance `Σ (x − mean)² / (n − 1)` — the square of
`statistics.stdev`, which requires at least two data points. -/
def sampleVariance (xs : List ℚ) : ℚ :=
  (xs.map (fun x => (x - listMean xs) ^ 2)).sum / ((xs.length : ℚ) - 1)

/-- One row of the recent-games list built by `get_recent_games`
(field names and order follow the dict literal in the source). -/
structure Game where
  game_id : String
  date : String
  matchup : String
  result : String
  team_points : ℤ
  opponent_points : ℤ
  plus_minus : ℤ
  field_goal_pct : ℚ
  three_point_pct : ℚ
  rebounds : ℤ
  assists : ℤ
  turnovers : ℤ
deriving DecidableEq

/-- The standings dict built by `get_standings` (a failed or empty fetch
returns `{}`, modelled as `none` at use sites). -/
structure Standings where
  conference : String
  league_rank : ℤ
  wins : ℤ
  losses : ℤ
  win_pct : ℚ
  games_back : ℚ
  last_10 : String
  streak : String
deriving DecidableEq

/-- The `PerformanceMetrics` dataclass of the source. -/
structure PerformanceMetrics where
  win_rate : ℚ
  wins : ℕ
  losses : ℕ
  avg_points : ℚ
  avg_margin : ℚ
  avg_fg_pct : ℚ
  consistency : String
deriving DecidableEq

/-- The `CompetitiveContext` dataclass of the source. -/
structure CompetitiveContext where
  league_rank : ℤ
  competitive_tier : String
  playoff_status : String
  win_pct : ℚ
  games_back : ℚ
deriving DecidableEq

/-- The dict returned by `analyze_performance_trends` on success, with the
nested `scoring_trend` dict flattened into its three fields. -/
structure TrendAnalysis where
  trend : String
  recent_win_rate : ℚ
  previous_win_rate : ℚ
  recent_avg : ℚ
  previous_avg : ℚ
  change : ℚ
  momentum : String
deriving DecidableEq

/-- The dict returned by `get_team_win_streak`: either the empty-games
fallback (streak_type "unknown", length 0, no recent record) or the
populated dict. -/
inductive StreakResult where
  | unknown
  | known (streak_type : String) (streak_length : ℕ) (wins10 : ℕ) (losses10 : ℤ)
deriving DecidableEq

/-- The dict returned by `calculate_momentum_score`. -/
structure MomentumResult where
  score : ℚ
  sentiment : String
  trend : String
deriving DecidableEq

/-- Embeds `DataTool.get_team_win_streak` as a function of the cached
20-game list it reads. Note the source counts every game in the window whose
result equals the most recent result (`sum(1 if g['result'] == current else 0
for g in games)`), with no break at the first non-matching game. -/
def get_team_win_streak (games : List Game) : StreakResult :=
  match games with
  | [] => .unknown
  | g0 :: _ =>
    let current := g0.result
    let streak := games.countP (fun g => g.result == current)
    let wins10 := (games.take 10).countP (fun g => g.result == "W")
    .known (if current == "W" then "winning" else "losing") streak wins10 (10 - (wins10 : ℤ))

/-- Spec-side definition, from the spec's words: the current streak is the
count of consecutive games, starting from the most recent, whose result
matches the most recent game's result. Compared against
`get_team_win_streak`, which is embedded from the source. -/
def spec_consecutive_streak (games : List Game) : ℕ :=
  match games with
  | [] => 0
  | g0 :: _ => (games.takeWhile (fun g => g.result == g0.result)).length

/-- Embeds `DataTool.analyze_performance_trends` as a function of the cached
20-game list. `.ok none` is the `{}` returned for an empty list; `.error` is
the `StatisticsError` raised by `statistics.mean` when `games[10:]` is empty
(which happens exactly when `1 ≤ len(games) ≤ 10`). -/
def analyze_performance_trends (games : List Game) : Except String (Option TrendAnalysis) :=
  if games.isEmpty then .ok none
  else if (games.drop 10).isEmpty then
    .error "StatisticsError: mean requires at least one data point"
  else
    let first := games.drop 10
    let second := games.take 10
    let first_wins := first.countP (fun g => g.result == "W")
    let second_wins := second.countP (fun g => g.result == "W")
    let first_avg := listMean (first.map (fun g => (g.team_points : ℚ)))
    let second_avg := listMean (second.map (fun g => (g.team_points : ℚ)))
    .ok (some
      { trend := if first_wins < second_wins then "improving" else "declining"
        recent_win_rate := (second_wins : ℚ) / 10
        previous_win_rate := (first_wins : ℚ) / 10
        recent_avg := roundTo 1 second_avg
        previous_avg := roundTo 1 first_avg
        change := roundTo 1 (second_avg - first_avg)
        momentum := if first_wins < second_wins ∧ first_avg < second_avg
                    then "positive" else "negative" })

/-- Embeds `DataTool.get_performance_metrics` as a function of the cached
games list. The `.error` branch is the `StatisticsError` raised by
`statistics.stdev` on fewer than two data points; the consistency test
`statistics.stdev(points) < 8` is embedded as `sampleVariance points < 64`,
equivalent since both sides of the source comparison are nonnegative. -/
def get_performance_metrics (games : List Game) : Except String PerformanceMetrics :=
  match games with
  | [] => .ok ⟨0, 0, 0, 0, 0, 0, "unknown"⟩
  | _ :: _ =>
    let wins := games.countP (fun g => g.result == "W")
    let points : List ℚ := games.map (fun g => (g.team_points : ℚ))
    let margins : List ℚ := games.map (fun g => ((g.team_points - g.opponent_points : ℤ) : ℚ))
    let fg_pcts : List ℚ := games.map (fun g => g.field_goal_pct)
    if games.length < 2 then
      .error "StatisticsError: stdev requires at least two data points"
    else
      .ok { win_rate := roundTo 3 ((wins : ℚ) / (games.length : ℚ))
            wins := wins
            losses := games.length - wins
            avg_points := roundTo 1 (listMean points)
            avg_margin := roundTo 1 (listMean margins)
            avg_fg_pct := roundTo 1 (listMean fg_pcts * 100)
            consistency := if sampleVariance points < 64 then "high" else "moderate" }

/-- Embeds `DataTool.get_competitive_context` as a function of the cached
standings (`none` is the empty dict `{}` returned by a failed fetch). -/
def get_competitive_context (standings : Option Standings) : CompetitiveContext :=
  match standings with
  | none => ⟨15, "unknown", "unknown", 1/2, 0⟩
  | some s =>
    let rank := s.league_rank
    let ts : String × String :=
      if rank ≤ 6 then ("championship_contender", "guaranteed")
      else if rank ≤ 10 then ("play_in_team", "likely")
      else ("rebuild_mode", "unlikely")
    ⟨rank, ts.1, ts.2, s.win_pct, s.games_back⟩

/-- Sentiment thresholds of `calculate_momentum_score`. -/
def sentimentOf (score : ℚ) : String :=
  if 75 ≤ score then "excellent"
  else if 60 ≤ score then "positive"
  else if 40 ≤ score then "neutral"
  else "concerning"

/-- Embeds `DataTool.calculate_momentum_score` as a function of the two
derivations it reads: the trends dict (`none` for `{}`, so the `.get`
defaults 0.5 / "stable" / absent momentum apply) and the streak dict. -/
def calculate_momentum_score (trends : Option TrendAnalysis) (streak : StreakResult) :
    MomentumResult :=
  let recent_win_rate : ℚ := match trends with
    | some t => t.recent_win_rate
    | none => 1/2
  let score1 : ℚ := 50 + (recent_win_rate - 1/2) * 60
  let streak_type : String := match streak with
    | .unknown => "unknown"
    | .known ty _ _ _ => ty
  let streak_len : ℕ := match streak with
    | .unknown => 0
    | .known _ len _ _ => len
  let adj : ℚ := min ((streak_len : ℚ) * 3) 20
  let score2 : ℚ := if streak_type == "winning" then score1 + adj else score1 - adj
  let bonus : ℚ := match trends with
    | some t => if t.momentum == "positive" then 10
                else if t.momentum == "negative" then -10 else 0
    | none => 0
  let score3 : ℚ := score2 + bonus
  let score4 : ℚ := max 0 (min 100 score3)
  { score := roundTo 1 score4
    sentiment := sentimentOf score4
    trend := match trends with
      | some t => t.trend
      | none => "stable" }

/-- Expiry instant of a cache entry: either a concrete instant (seconds) or
`datetime.max`, which is later than every instant that `datetime.now()` can
return. -/
inductive Expiry where
  | atTime (t : ℤ)
  | maxTime
deriving DecidableEq

/-- The comparison `datetime.now() < expiry` of `_get_cached`. -/
def Expiry.isAfter : Expiry → ℤ → Bool
  | .atTime e, now => decide (now < e)
  | .maxTime, _ => true

/-- The `_cache` dict `{key: (data, expiry_time)}`, as an association list. -/
def Cache (α : Type) : Type := List (String × α × Expiry)

/-- Dict lookup `self._cache[key]` (first binding wins). -/
def lookupEntry {α : Type} : Cache α → String → Option (α × Expiry)
  | [], _ => none
  | (k, v, e) :: rest, key => if k = key then some (v, e) else lookupEntry rest key

/-- Dict deletion `del self._cache[key]`. -/
def eraseKey {α : Type} : Cache α → String → Cache α
  | [], _ => []
  | (k, v, e) :: rest, key =>
    if k = key then eraseKey rest key else (k, v, e) :: eraseKey rest key

/-- Dict assignment `self._cache[key] = (data, expiry)`; erase-then-cons,
which agrees with dict overwrite for every lookup. -/
def insertEntry {α : Type} (c : Cache α) (key : String) (v : α) (e : Expiry) : Cache α :=
  (key, v, e) :: eraseKey c key

/-- Embeds `DataTool._get_cached` at instant `now`: returns the value read
(`none` stands for the Python `None`) together with the cache state after the
call (an expired entry is deleted as a side effect). -/
def get_cached {α : Type} (c : Cache α) (key : String) (ttl : Option ℤ) (now : ℤ) :
    Option α × Cache α :=
  match lookupEntry c key with
  | none => (none, c)
  | some (data, expiry) =>
    if ttl.isNone || expiry.isAfter now then (some data, c)
    else (none, eraseKey c key)

/-- Embeds `DataTool._set_cache` at instant `now`. The expiry is
`now + ttl_seconds` when `ttl_seconds` is truthy and `datetime.max`
otherwise — note that in Python the integer `0` is falsy, so a zero TTL is
stored as a permanent entry. -/
def set_cache {α : Type} (c : Cache α) (key : String) (data : α) (ttl : Option ℤ) (now : ℤ) :
    Cache α :=
  let expiry := match ttl with
    | some t => if t = 0 then Expiry.maxTime else Expiry.atTime (now + t)
    | none => Expiry.maxTime
  insertEntry c key data expiry

/-- Embeds `DataTool._fetch_or_cache`. The loader is a completed fetch
attempt (`.error` stands for the fetch function raising). `tGet` is the
instant of the cache check, `tSet` the instant the result is stored (the
loader runs in between). Returns the call's outcome and the cache state
afterwards: a raising loader propagates before `_set_cache` runs. -/
def fetch_or_cache {α ε : Type} (c : Cache α) (key : String) (fetch : Except ε α)
    (ttl : Option ℤ) (tGet tSet : ℤ) : Except ε α × Cache α :=
  match get_cached c key ttl tGet with
  | (some cached, c1) => (.ok cached, c1)
  | (none, c1) =>
    match fetch with
    | .error e => (.error e, c1)
    | .ok data => (.ok data, set_cache c1 key data ttl tSet)

/-- One roster dict built by `get_team_roster` (only the fields that
`get_top_performers` reads, plus the id used to key the player log fetch). -/
structure RosterPlayer where
  player_id : ℕ
  player_name : String
  position : String
deriving DecidableEq

/-- One row of a player game log (the three columns averaged by
`get_top_performers`). -/
structure PlayerGame where
  pts : ℚ
  ast : ℚ
  reb : ℚ
deriving DecidableEq

/-- One performer dict built by `get_top_performers`. -/
structure Performer where
  player_name : String
  position : String
  avg_points : ℚ
  avg_assists : ℚ
  avg_rebounds : ℚ
deriving DecidableEq

/-- The body of the per-player loop of `get_top_performers`: `none` when the
`PlayerGameLog` fetch raises (`except: continue`) — modelled as
`logs p.player_id = none` — or when the returned frame is empty; otherwise
the performer dict averaging the most recent `num_games` rows. -/
def mkPerformer (logs : ℕ → Option (List PlayerGame)) (num_games : ℕ) (p : RosterPlayer) :
    Option Performer :=
  match logs p.player_id with
  | none => none
  | some [] => none
  | some (g :: gs) =>
    let recent := (g :: gs).take num_games
    some { player_name := p.player_name
           position := p.position
           avg_points := roundTo 1 (listMean (recent.map (fun r => r.pts)))
           avg_assists := roundTo 1 (listMean (recent.map (fun r => r.ast)))
           avg_rebounds := roundTo 1 (listMean (recent.map (fun r => r.reb))) }

/-- The `performers` list of `get_top_performers`: the loop
`for player in roster[:10]` appending in roster order. -/
def performersFrom (roster : List RosterPlayer) (logs : ℕ → Option (List PlayerGame))
    (num_games : ℕ) : List Performer :=
  (roster.take 10).filterMap (mkPerformer logs num_games)

/-- Comparison used to sort performers: `a` may precede `b` exactly when
`a`'s average points are at least `b`'s
(`sorted(key=lambda x: x['avg_points'], reverse=True)`). -/
def topPerfRel (a b : ℕ × Performer) : Prop :=
  b.2.avg_points ≤ a.2.avg_points

instance : DecidableRel topPerfRel := fun a b =>
  inferInstanceAs (Decidable (b.2.avg_points ≤ a.2.avg_points))

/-- The order that characterises a stable descending sort: strictly more
average points, or equal average points and an earlier original position. -/
def rosterOrderRel (a b : ℕ × Performer) : Prop :=
  b.2.avg_points < a.2.avg_points ∨ (a.2.avg_points = b.2.avg_points ∧ a.1 < b.1)

/-- Tags each list element with its position, starting at `n`. -/
def tagFrom {α : Type} (n : ℕ) : List α → List (ℕ × α)
  | [] => []
  | x :: xs => (n, x) :: tagFrom (n + 1) xs

/-- Embeds `get_top_performers` as a function of the cached roster and the
per-player game logs. Python's `sorted` is stable, which the embedding
realises as decorate-sort-undecorate: tag each performer with its position
(= roster order), insertion-sort by average points descending (ties keep the
earlier-tagged element first), untag, and keep the first five. -/
def get_top_performers (roster : List RosterPlayer) (logs : ℕ → Option (List PlayerGame))
    (num_games : ℕ) : List Performer :=
  ((((tagFrom 0 (performersFrom roster logs num_games)).insertionSort topPerfRel).take 5).map
    Prod.snd)

theorem roundHalfEven_nonneg {q : ℚ} (h : 0 ≤ q) : 0 ≤ roundHalfEven q := by
  have hf : (0 : ℤ) ≤ ⌊q⌋ := Int.floor_nonneg.mpr h
  unfold roundHalfEven
  split
  · exact hf
  · split
    · omega
    · split <;> omega

theorem roundHalfEven_le {q : ℚ} {n : ℤ} (h : q ≤ n) : roundHalfEven q ≤ n := by
  have hf : ⌊q⌋ ≤ n := by
    have h1 := Int.floor_le_floor (α := ℚ) h
    rwa [Int.floor_intCast] at h1
  unfold roundHalfEven
  split
  · exact hf
  · rename_i hnot
    have h2 : (1 : ℚ)/2 ≤ q - ⌊q⌋ := le_of_not_lt hnot
    have h3 : (⌊q⌋ : ℚ) < n := by
      have h4 := Int.floor_le q
      linarith
    have h5 : ⌊q⌋ < n := by exact_mod_cast h3
    split
    · omega
    · split <;> omega

theorem roundTo_nonneg (d : ℕ) {q : ℚ} (h : 0 ≤ q) : 0 ≤ roundTo d q := by
  unfold roundTo
  have h1 : (0 : ℚ) ≤ q * 10 ^ d := by positivity
  have h2 : (0 : ℤ) ≤ roundHalfEven (q * 10 ^ d) := roundHalfEven_nonneg h1
  have h3 : (0 : ℚ) ≤ (roundHalfEven (q * 10 ^ d) : ℚ) := by exact_mod_cast h2
  positivity

theorem roundTo_le (d : ℕ) {q : ℚ} {n : ℤ} (h : q ≤ n) : roundTo d q ≤ n := by
  have hpow : (0 : ℚ) < 10 ^ d := by positivity
  have h1 : q * 10 ^ d ≤ ((n * 10 ^ d : ℤ) : ℚ) := by
    push_cast
    exact mul_le_mul_of_nonneg_right h (le_of_lt hpow)
  have h2 : roundHalfEven (q * 10 ^ d) ≤ n * 10 ^ d := roundHalfEven_le h1
  unfold roundTo
  rw [div_le_iff₀ hpow]
  calc (roundHalfEven (q * 10 ^ d) : ℚ) ≤ ((n * 10 ^ d : ℤ) : ℚ) := by exact_mod_cast h2
    _ = (n : ℚ) * 10 ^ d := by push_cast; ring

theorem clamp_round_mem (x : ℚ) :
    0 ≤ roundTo 1 (max 0 (min 100 x)) ∧ roundTo 1 (max 0 (min 100 x)) ≤ 100 := by
  constructor
  · exact roundTo_nonneg 1 (le_max_left 0 (min 100 x))
  · have h1 : max 0 (min 100 x) ≤ (100 : ℚ) :=
      max_le (by norm_num) (min_le_left 100 x)
    have h2 := roundTo_le (n := 100) 1 h1
    simpa using h2

theorem lookupEntry_eraseKey_self {α : Type} (c : Cache α) (k : String) :
    lookupEntry (eraseKey c k) k = none := by
  induction c with
  | nil => rfl
  | cons hd tl ih =>
    obtain ⟨k0, v, e⟩ := hd
    by_cases h : k0 = k
    · simp only [eraseKey]
      rw [if_pos h]
      exact ih
    · simp only [eraseKey]
      rw [if_neg h]
      simp only [lookupEntry]
      rw [if_neg h]
      exact ih

theorem lookup_after_miss {α : Type} (c : Cache α) (key : String) (ttl : Option ℤ) (now : ℤ) :
    (get_cached c key ttl now).1 = none →
    lookupEntry (get_cached c key ttl now).2 key = none := by
  unfold get_cached
  cases hl : lookupEntry c key with
  | none =>
    intro _
    exact hl
  | some pe =>
    obtain ⟨data, expiry⟩ := pe
    dsimp only
    by_cases hc : (ttl.isNone || expiry.isAfter now) = true
    · rw [if_pos hc]
      intro h
      simp at h
    · rw [if_neg hc]
      intro _
      exact lookupEntry_eraseKey_self c key

theorem fst_le_of_mem_tagFrom {α : Type} :
    ∀ (n : ℕ) (l : List α) (q : ℕ × α), q ∈ tagFrom n l → n ≤ q.1 := by
  intro n l
  induction l generalizing n with
  | nil => intro q hq; simp [tagFrom] at hq
  | cons x xs ih =>
    intro q hq
    rcases List.mem_cons.mp hq with rfl | hq
    · exact le_refl n
    · exact le_of_lt (Nat.lt_of_succ_le (ih (n + 1) q hq))

theorem snd_mem_of_mem_tagFrom {α : Type} :
    ∀ (n : ℕ) (l : List α) (q : ℕ × α), q ∈ tagFrom n l → q.2 ∈ l := by
  intro n l
  induction l generalizing n with
  | nil => intro q hq; simp [tagFrom] at hq
  | cons x xs ih =>
    intro q hq
    rcases List.mem_cons.mp hq with rfl | hq
    · exact List.mem_cons_self x xs
    · exact List.mem_cons_of_mem x (ih (n + 1) q hq)

theorem pairwise_fst_tagFrom {α : Type} :
    ∀ (n : ℕ) (l : List α), (tagFrom n l).Pairwise (fun a b => a.1 < b.1) := by
  intro n l
  induction l generalizing n with
  | nil => exact List.Pairwise.nil
  | cons x xs ih =>
    refine List.Pairwise.cons ?_ (ih (n + 1))
    intro b hb
    exact Nat.lt_of_succ_le (fst_le_of_mem_tagFrom (n + 1) xs b hb)

theorem pairwise_orderedInsert_rosterOrder (x : ℕ × Performer) :
    ∀ (l : List (ℕ × Performer)), l.Pairwise rosterOrderRel → (∀ b ∈ l, x.1 < b.1) →
      (l.orderedInsert topPerfRel x).Pairwise rosterOrderRel := by
  intro l
  induction l with
  | nil =>
    intro _ _
    simp [List.orderedInsert, rosterOrderRel]
  | cons b tl ih =>
    intro hp hx
    rcases List.pairwise_cons.mp hp with ⟨hb, htl⟩
    rw [List.orderedInsert]
    by_cases h : topPerfRel x b
    · have h' : b.2.avg_points ≤ x.2.avg_points := h
      rw [if_pos h]
      refine List.pairwise_cons.mpr ⟨?_, hp⟩
      intro c hc
      rcases List.mem_cons.mp hc with rfl | hc
      · rcases lt_or_eq_of_le h' with hlt | heq
        · exact Or.inl hlt
        · exact Or.inr ⟨heq.symm, hx c (List.mem_cons_self c tl)⟩
      · have hbc := hb c hc
        rcases hbc with hlt | ⟨heq, _⟩
        · exact Or.inl (lt_of_lt_of_le hlt h')
        · have hcx : c.2.avg_points ≤ x.2.avg_points := heq ▸ h'
          rcases lt_or_eq_of_le hcx with hlt | heq2
          · exact Or.inl hlt
          · exact Or.inr ⟨heq2.symm, hx c (List.mem_cons_of_mem b hc)⟩
    · rw [if_neg h]
      have hxb : x.2.avg_points < b.2.avg_points := lt_of_not_le h
      refine List.pairwise_cons.mpr ⟨?_, ih htl (fun q hq => hx q (List.mem_cons_of_mem b hq))⟩
      intro c hc
      rcases (List.mem_orderedInsert topPerfRel).mp hc with rfl | hc
      · exact Or.inl hxb
      · exact hb c hc

theorem pairwise_insertionSort_rosterOrder :
    ∀ (l : List (ℕ × Performer)), l.Pairwise (fun a b => a.1 < b.1) →
      (l.insertionSort topPerfRel).Pairwise rosterOrderRel := by
  intro l
  induction l with
  | nil => intro _; exact List.Pairwise.nil
  | cons x xs ih =>
    intro hp
    rcases List.pairwise_cons.mp hp with ⟨hx, hxs⟩
    rw [List.insertionSort]
    exact pairwise_orderedInsert_rosterOrder x _ (ih hxs)
      (fun b hb => hx b ((List.mem_insertionSort topPerfRel).mp hb))

/-- A sample won game (most fields irrelevant to the derivations). -/
def gW : Game := ⟨"0022500001", "2025-10-21", "LAL vs. GSW", "W", 110, 100, 10, 1/2, 2/5, 40, 25, 12⟩

/-- A sample lost game. -/
def gL : Game := ⟨"0022500002", "2025-10-23", "LAL @ PHX", "L", 100, 110, -10, 9/20, 1/3, 38, 22, 14⟩

/-- The spec's streak example: results `[W, W, W, L, W]`, most recent first. -/
def wwwlw : List Game := [gW, gW, gW, gL, gW]

/-- C1: the claim says the streak length is the count of *consecutive* games
from the most recent matching its result, so `[W,W,W,L,W]` should give a
winning streak of length 3. The source instead counts every matching game in
the whole window (`sum(1 if g['result'] == current else 0 for g in games)`,
no break), returning length 4 on this input, while the consecutive count —
the meaning of "streak" in the function's own name, docstring and
`streak_length` key — is 3. -/
theorem streak_counts_nonconsecutive :
    get_team_win_streak wwwlw = .known "winning" 4 4 6 ∧
    spec_consecutive_streak wwwlw = 3 := by
  constructor
  · rfl
  · rfl

theorem fetch_or_cache_of_not_found {α ε : Type} (c : Cache α) (key : String) (v : α)
    (ttl : Option ℤ) (tGet tSet : ℤ) (h : lookupEntry c key = none) :
    fetch_or_cache c key (.ok v : Except ε α) ttl tGet tSet =
      (.ok v, set_cache c key v ttl tSet) := by
  unfold fetch_or_cache get_cached
  rw [h]

/-- C2: when the loader passed to `_fetch_or_cache` fails on a cache miss,
the failure is returned to the caller, no entry is left under the key, and a
subsequent call for the same key runs a fresh load and returns its result. -/
theorem fetch_failure_not_cached {α ε : Type} (c : Cache α) (key : String) (e : ε)
    (ttl : Option ℤ) (tGet tSet tGet2 tSet2 : ℤ) (v : α)
    (hmiss : (get_cached c key ttl tGet).1 = none) :
    fetch_or_cache c key (.error e) ttl tGet tSet =
      (.error e, (get_cached c key ttl tGet).2) ∧
    lookupEntry (fetch_or_cache c key (.error e) ttl tGet tSet).2 key = none ∧
    (fetch_or_cache (fetch_or_cache c key (.error e) ttl tGet tSet).2 key
      (.ok v : Except ε α) ttl tGet2 tSet2).1 = .ok v := by
  have hp : get_cached c key ttl tGet = (none, (get_cached c key ttl tGet).2) := by
    rw [← hmiss]
  have hcall : fetch_or_cache c key (.error e) ttl tGet tSet =
      (.error e, (get_cached c key ttl tGet).2) := by
    unfold fetch_or_cache
    rw [hp]
  have hlook : lookupEntry (get_cached c key ttl tGet).2 key = none :=
    lookup_after_miss c key ttl tGet hmiss
  refine ⟨hcall, ?_, ?_⟩
  · rw [hcall]
    exact hlook
  · rw [hcall]
    rw [fetch_or_cache_of_not_found _ key v ttl tGet2 tSet2 hlook]

/-- Closed instance of `fetch_failure_not_cached`: empty cache, the
standings key with its 5-minute TTL, a failed load, then a successful
retry. -/
theorem fetch_failure_not_cached_witness :
    fetch_or_cache ([] : Cache ℤ) "standings" (.error "ProviderUnavailable") (some 300) 0 1 =
      (.error "ProviderUnavailable", (get_cached ([] : Cache ℤ) "standings" (some 300) 0).2) ∧
    lookupEntry (fetch_or_cache ([] : Cache ℤ) "standings" (.error "ProviderUnavailable")
      (some 300) 0 1).2 "standings" = none ∧
    (fetch_or_cache (fetch_or_cache ([] : Cache ℤ) "standings" (.error "ProviderUnavailable")
      (some 300) 0 1).2 "standings" (.ok 7 : Except String ℤ) (some 300) 2 3).1 = .ok 7 :=
  fetch_failure_not_cached [] "standings" "ProviderUnavailable" (some 300) 0 1 2 3 7 rfl

/-- C6 counterexample: the claim quantifies over every finite TTL, but a TTL
of 0 seconds is falsy in Python, so `_set_cache` stores `datetime.max` and a
read 100 seconds later — far past `t − t0 ≥ T` — still returns the value
instead of reporting it absent. -/
theorem ttl_zero_entry_never_expires :
    (get_cached (set_cache ([] : Cache ℤ) "k" 42 (some 0) 0) "k" (some 0) 100).1 = some 42 := by
  rfl

/-- C6 as amended: for every *positive* finite TTL `T`, an entry stored at
`t0` is returned unchanged by a read at any `t` with `t − t0 < T`, and a read
at any `t` with `t − t0 ≥ T` reports the entry absent and removes it from the
store. -/
theorem ttl_correct {α : Type} (c : Cache α) (key : String) (v : α) (T t0 t : ℤ)
    (hT : 0 < T) :
    (t - t0 < T →
      get_cached (set_cache c key v (some T) t0) key (some T) t =
        (some v, set_cache c key v (some T) t0)) ∧
    (T ≤ t - t0 →
      (get_cached (set_cache c key v (some T) t0) key (some T) t).1 = none ∧
      lookupEntry (get_cached (set_cache c key v (some T) t0) key (some T) t).2 key = none) := by
  have hne : T ≠ 0 := by omega
  have hset : set_cache c key v (some T) t0 =
      (key, v, Expiry.atTime (t0 + T)) :: eraseKey c key := by
    unfold set_cache insertEntry
    dsimp only
    rw [if_neg hne]
  have hlk : lookupEntry ((key, v, Expiry.atTime (t0 + T)) :: eraseKey c key) key =
      some (v, Expiry.atTime (t0 + T)) := by
    unfold lookupEntry
    rw [if_pos rfl]
  constructor
  · intro hfresh
    have hcond : ((some T : Option ℤ).isNone || (Expiry.atTime (t0 + T)).isAfter t) = true := by
      simp only [Option.isNone_some, Bool.false_or, Expiry.isAfter, decide_eq_true_eq]
      omega
    have hget : get_cached ((key, v, Expiry.atTime (t0 + T)) :: eraseKey c key) key (some T) t =
        (some v, (key, v, Expiry.atTime (t0 + T)) :: eraseKey c key) := by
      unfold get_cached
      rw [hlk]
      dsimp only
      rw [if_pos hcond]
    rw [hset, hget]
  · intro hstale
    have hcond : ¬ (((some T : Option ℤ).isNone || (Expiry.atTime (t0 + T)).isAfter t) = true) := by
      simp only [Option.isNone_some, Bool.false_or, Expiry.isAfter, decide_eq_true_eq]
      omega
    have hget : get_cached ((key, v, Expiry.atTime (t0 + T)) :: eraseKey c key) key (some T) t =
        (none, eraseKey ((key, v, Expiry.atTime (t0 + T)) :: eraseKey c key) key) := by
      unfold get_cached
      rw [hlk]
      dsimp only
      rw [if_neg hcond]
    rw [hset, hget]
    exact ⟨rfl, lookupEntry_eraseKey_self _ key⟩

/-- Closed instance of `ttl_correct` at the games key with its 5-minute TTL:
a read at 299 seconds still sees the entry, a read at 300 seconds does not. -/
theorem ttl_correct_witness :
    get_cached (set_cache ([] : Cache ℤ) "games_20" 5 (some 300) 0) "games_20" (some 300) 299 =
      (some 5, set_cache ([] : Cache ℤ) "games_20" 5 (some 300) 0) ∧
    (get_cached (set_cache ([] : Cache ℤ) "games_20" 5 (some 300) 0) "games_20"
      (some 300) 300).1 = none :=
  ⟨(ttl_correct [] "games_20" 5 300 0 299 (by norm_num)).1 (by norm_num),
   ((ttl_correct [] "games_20" 5 300 0 300 (by norm_num)).2 (by norm_num)).1⟩

/-- C3 counterexample: a single-game list is a non-empty list of fewer than
20 games, yet `analyze_performance_trends` does not return a degenerate
comparison — `games[10:]` is empty, so `statistics.mean` raises. -/
theorem trends_single_game_fails :
    analyze_performance_trends [gW] =
      .error "StatisticsError: mean requires at least one data point" := by
  rfl

/-- C3 as amended: with 11 to 19 games the older/newer split still happens
on whatever games are available and a (degenerate) comparison is returned;
with 1 to 10 games the older slice `games[10:]` is empty and the mean
computation fails instead. This theorem proves the surviving half. -/
theorem trends_small_sample (games : List Game)
    (h1 : 11 ≤ games.length) (h2 : games.length ≤ 19) :
    ∃ t : TrendAnalysis,
      analyze_performance_trends games = .ok (some t) ∧
      t.recent_win_rate = (((games.take 10).countP (fun g => g.result == "W") : ℚ)) / 10 ∧
      t.previous_win_rate = (((games.drop 10).countP (fun g => g.result == "W") : ℚ)) / 10 := by
  have hg : games.isEmpty = false := by
    rw [List.isEmpty_eq_false]
    exact List.ne_nil_of_length_pos (by omega)
  have hf : (games.drop 10).isEmpty = false := by
    rw [List.isEmpty_eq_false]
    apply List.ne_nil_of_length_pos
    rw [List.length_drop]
    omega
  unfold analyze_performance_trends
  rw [hg, hf]
  exact ⟨_, rfl, rfl, rfl⟩

/-- Eleven games, the ten most recent won and the eleventh lost. -/
def gs11 : List Game := [gW, gW, gW, gW, gW, gW, gW, gW, gW, gW, gL]

/-- Closed instance of `trends_small_sample` on an 11-game list. -/
theorem trends_small_sample_witness :
    ∃ t : TrendAnalysis,
      analyze_performance_trends gs11 = .ok (some t) ∧
      t.recent_win_rate = (((gs11.take 10).countP (fun g => g.result == "W") : ℚ)) / 10 ∧
      t.previous_win_rate = (((gs11.drop 10).countP (fun g => g.result == "W") : ℚ)) / 10 :=
  trends_small_sample gs11 (by decide) (by decide)

/-- C4: whatever the trends dict (including the empty `{}`) and the streak
dict hold, the momentum score — base 50, shifted by
`(recent_win_rate − 0.5) × 60`, adjusted by the streak term capped at 20 and
by ±10 for momentum, then clamped — lies in [0, 100]. This covers every
recent win rate in [0,1], every streak type and length, and every momentum
label. -/
theorem momentum_score_bounds (trends : Option TrendAnalysis) (streak : StreakResult) :
    0 ≤ (calculate_momentum_score trends streak).score ∧
    (calculate_momentum_score trends streak).score ≤ 100 := by
  unfold calculate_momentum_score
  dsimp only
  exact clamp_round_mem _

/-- C5: the competitive tier follows the inclusive rank thresholds of the
source — rank ≤ 6 championship_contender/guaranteed, rank 7–10
play_in_team/likely, rank ≥ 11 rebuild_mode/unlikely. -/
theorem competitive_tier_thresholds (s : Standings) :
    (s.league_rank ≤ 6 →
      (get_competitive_context (some s)).competitive_tier = "championship_contender" ∧
      (get_competitive_context (some s)).playoff_status = "guaranteed") ∧
    (7 ≤ s.league_rank → s.league_rank ≤ 10 →
      (get_competitive_context (some s)).competitive_tier = "play_in_team" ∧
      (get_competitive_context (some s)).playoff_status = "likely") ∧
    (11 ≤ s.league_rank →
      (get_competitive_context (some s)).competitive_tier = "rebuild_mode" ∧
      (get_competitive_context (some s)).playoff_status = "unlikely") := by
  unfold get_competitive_context
  dsimp only
  refine ⟨fun h => ?_, fun h1 h2 => ?_, fun h => ?_⟩
  · rw [if_pos h]
    exact ⟨rfl, rfl⟩
  · rw [if_neg (by omega), if_pos h2]
    exact ⟨rfl, rfl⟩
  · rw [if_neg (by omega), if_neg (by omega)]
    exact ⟨rfl, rfl⟩

/-- A standings snapshot at a given league rank. -/
def standingsAt (r : ℤ) : Standings := ⟨"East", r, 30, 20, 3/5, 2, "7-3", "W 3"⟩

/-- Closed instance of `competitive_tier_thresholds` at the boundary ranks
6, 7, 10 and 11. -/
theorem competitive_tier_thresholds_witness :
    (get_competitive_context (some (standingsAt 6))).competitive_tier =
      "championship_contender" ∧
    (get_competitive_context (some (standingsAt 7))).competitive_tier = "play_in_team" ∧
    (get_competitive_context (some (standingsAt 10))).competitive_tier = "play_in_team" ∧
    (get_competitive_context (some (standingsAt 11))).competitive_tier = "rebuild_mode" :=
  ⟨((competitive_tier_thresholds (standingsAt 6)).1 (by decide)).1,
   ((competitive_tier_thresholds (standingsAt 7)).2.1 (by decide) (by decide)).1,
   ((competitive_tier_thresholds (standingsAt 10)).2.1 (by decide) (by decide)).1,
   ((competitive_tier_thresholds (standingsAt 11)).2.2 (by decide)).1⟩

/-- C7: the top-performers derivation only looks at the first 10 roster
players, every returned entry comes from a player whose log fetch succeeded
and was non-empty, at most 5 entries are returned, and the returned list is
the first five of the stable descending sort by average points — descending,
with ties kept in original roster (= performers-list) order, as
`rosterOrderRel` on the position-tagged sort states. -/
theorem top_performers_spec (roster : List RosterPlayer)
    (logs : ℕ → Option (List PlayerGame)) (num_games : ℕ) :
    (get_top_performers roster logs num_games).length ≤ 5 ∧
    get_top_performers roster logs num_games =
      get_top_performers (roster.take 10) logs num_games ∧
    (∀ p ∈ get_top_performers roster logs num_games,
      ∃ r ∈ roster.take 10, mkPerformer logs num_games r = some p) ∧
    (((tagFrom 0 (performersFrom roster logs num_games)).insertionSort
      topPerfRel).take 5).Pairwise rosterOrderRel ∧
    get_top_performers roster logs num_games =
      ((((tagFrom 0 (performersFrom roster logs num_games)).insertionSort
        topPerfRel).take 5).map Prod.snd) := by
  refine ⟨?_, ?_, ?_, ?_, rfl⟩
  · unfold get_top_performers
    rw [List.length_map, List.length_take]
    exact min_le_left 5 _
  · unfold get_top_performers performersFrom
    rw [List.take_take]
    norm_num
  · intro p hp
    unfold get_top_performers at hp
    rcases List.mem_map.mp hp with ⟨q, hq, rfl⟩
    have hq2 := List.mem_of_mem_take hq
    have hq3 := (List.mem_insertionSort topPerfRel).mp hq2
    have hq4 := snd_mem_of_mem_tagFrom 0 _ q hq3
    rcases List.mem_filterMap.mp hq4 with ⟨r, hr, hmk⟩
    exact ⟨r, hr, hmk⟩
  · exact List.Pairwise.sublist (List.take_sublist 5 _)
      (pairwise_insertionSort_rosterOrder _ (pairwise_fst_tagFrom 0 _))

/-- C8: derivations turn empty or missing primitive inputs into
degenerate-but-valid defaults — an empty games list gives the zero-valued
metrics with consistency "unknown", and absent standings give the neutral
fallback (rank 15, unknown tier and status, win percentage 0.5,
0 games back). -/
theorem degenerate_defaults :
    get_performance_metrics [] = .ok ⟨0, 0, 0, 0, 0, 0, "unknown"⟩ ∧
    get_competitive_context none = ⟨15, "unknown", "unknown", 1/2, 0⟩ :=
  ⟨rfl, rfl⟩

/-- C10: a games list with exactly one game makes `get_performance_metrics`
fail — `statistics.stdev` needs at least two data points — while the empty
list is the only guarded case, returning the zero-valued default. -/
theorem single_game_metrics_fails :
    (∀ g : Game, get_performance_metrics [g] =
      .error "StatisticsError: stdev requires at least two data points") ∧
    get_performance_metrics [] = .ok ⟨0, 0, 0, 0, 0, 0, "unknown"⟩ :=
  ⟨fun _ => rfl, rfl⟩

end DataTool
